import Mathlib

/-!
Verification of the subscribe command handler of telegram-channels-feed
(src/bot/src/handler/commands/subscribe.py) together with the
subscription-management and fanout components its specification describes.

The handler is embedded shallowly: Python exceptions become an inductive
type, the channel dictionary becomes an association list, and the outcome
of the external call subscriptions.subscribe(command) is a parameter of the
embedded function, since the service itself is not part of the visible
source.  Each run is recorded as a trace of events (context check, replies
sent, service call) so that ordering and invocation properties can be
stated.
-/

namespace ChannelsFeed

/-- Exceptions observable in the handler. `generic msg` models a
GenericSubscriptionError whose str() is `msg`; `keyError k` models the
KeyError raised by a missing dictionary key `k`; `other tag` models an
exception of any other class. -/
inductive PyExn where
  | generic (msg : String)
  | keyError (key : String)
  | other (tag : String)
deriving DecidableEq, Repr

/-- Channel value returned by subscriptions.subscribe: a Python dict with
string keys and string values, modelled as an association list. -/
abbrev Dict := List (String × String)

/-- Python dictionary lookup d[k]: the value at key `k`, or a KeyError when
the key is absent. -/
def dictGet (d : Dict) (k : String) : Except PyExn String :=
  match d.find? (fun p => p.1 == k) with
  | some p => Except.ok p.2
  | none => Except.error (PyExn.keyError k)

/-- Command object as the handler uses it: only command.is_private() is
consulted. -/
structure Command where
  is_private : Bool
deriving DecidableEq, Repr

/-- Reply text sent on line 11 of subscribe.py for a non-private context. -/
def unsupportedMsg : String := "Groups currently are not supported!"

/-- Success reply built on lines 15-16 of subscribe.py from the name and
url entries of the channel dict. -/
def successMsg (name url : String) : String :=
  "Successfully subscribed to \"" ++ name ++ "\" (@" ++ url ++ ")"

/-- Observable events of one run of Subscribe.execute, in order. -/
inductive Event where
  | checkPrivate (result : Bool)
  | reply (text : String)
  | callSubscribe
deriving DecidableEq, Repr

/-- Result of one run of Subscribe.execute: the ordered event trace and
the exception escaping the method, if any (`none` means normal return). -/
structure ExecOutput where
  events : List Event
  exn : Option PyExn
deriving DecidableEq, Repr

/-- Events of subscribe.py lines 10-14 that every run performs before the
outcome of subscriptions.subscribe is inspected: the is_private() check,
the unsupported-context reply when the check fails (with no return
statement afterwards), and the service call itself. -/
def preEvents (cmd : Command) : List Event :=
  Event.checkPrivate cmd.is_private ::
    (if cmd.is_private then [] else [Event.reply unsupportedMsg]) ++
      [Event.callSubscribe]

/-- Shallow embedding of Subscribe.execute (subscribe.py lines 9-18).
`res` is the outcome of the external call subscriptions.subscribe(command):
`Except.ok d` when it returns the dict `d`, `Except.error e` when it raises
`e`.  After the context check (which does not return), the try block calls
the service, then evaluates channel["name"] and channel["url"] and sends the
success reply; the except clause catches exactly GenericSubscriptionError
and replies with str(e); any other exception escapes. -/
def execute (cmd : Command) (res : Except PyExn Dict) : ExecOutput :=
  match res with
  | Except.ok channel =>
      match dictGet channel "name" with
      | Except.error e => ⟨preEvents cmd, some e⟩
      | Except.ok nm =>
          match dictGet channel "url" with
          | Except.error e => ⟨preEvents cmd, some e⟩
          | Except.ok u =>
              ⟨preEvents cmd ++ [Event.reply (successMsg nm u)], none⟩
  | Except.error e =>
      match e with
      | PyExn.generic msg => ⟨preEvents cmd ++ [Event.reply msg], none⟩
      | e => ⟨preEvents cmd, some e⟩

/-- Texts of the replies sent during a run, in the order they were sent. -/
def replies (o : ExecOutput) : List String :=
  o.events.filterMap (fun e =>
    match e with
    | Event.reply t => some t
    | _ => none)

/-- Channel dict of the specification scenario. -/
def techNewsDict : Dict :=
  [("name", "Tech News"), ("url", "https://example.com/tech")]

/-- Modelled from the spec: a Channel record of the Channel Registry
(section 3 of the spec; the registry and store are not under src/):
identifier, display name and source url. -/
structure Channel where
  id : String
  name : String
  url : String
deriving DecidableEq, Repr

/-- Modelled from the spec: error kinds of the Subscription Manager
(sections 4.3 and 7; the manager is not under src/). -/
inductive SubError where
  | unsupportedContext
  | unknownChannel
  | alreadySubscribed (existing : Channel)
deriving DecidableEq, Repr

/-- Modelled from the spec: the Subscription Store state (section 4.1, not
under src/): the recorded (subscriberId, channelId) pairs. -/
abbrev Store := List (String × String)

/-- Modelled from the spec: Store.add (section 4.1, not under src/): fails
when the pair is already recorded, otherwise records it. -/
def storeAdd (st : Store) (sub ch : String) : Option Store :=
  if (sub, ch) ∈ st then none else some ((sub, ch) :: st)

/-- Modelled from the spec: Subscription Manager subscribe (section 4.3,
not under src/).  Policy in order: reject a non-private context with
UnsupportedContext, resolve the channel via the registry (`resolve`)
propagating UnknownChannel, attempt Store.add signalling AlreadySubscribed
with the existing channel, and otherwise return the channel.  The result
pairs the outcome with the store after the call. -/
def managerSubscribe (resolve : String → Option Channel) (isPrivate : Bool)
    (sub rawId : String) (st : Store) : Except SubError Channel × Store :=
  if isPrivate then
    match resolve rawId with
    | none => (Except.error SubError.unknownChannel, st)
    | some ch =>
        match storeAdd st sub ch.id with
        | none => (Except.error (SubError.alreadySubscribed ch), st)
        | some st2 => (Except.ok ch, st2)
  else (Except.error SubError.unsupportedContext, st)

/-- Modelled from the spec: one per-subscriber delivery attempt of the
Fanout Dispatcher (section 4.4, not under src/).  `recs` is the set of
successful DeliveryRecords as (itemId, subscriberId) pairs and `delivered`
the subscribers successfully delivered to so far in this dispatch; a
subscriber with an existing successful record for the item is skipped,
otherwise delivery is attempted through the transport (`ok`, its final
outcome after bounded retries) and recorded on success. -/
def deliverStep (ok : String → Bool) (item : String)
    (acc : List (String × String) × List String) (s : String) :
    List (String × String) × List String :=
  if (item, s) ∈ acc.1 then acc
  else if ok s then ((item, s) :: acc.1, acc.2 ++ [s])
  else acc

/-- Modelled from the spec: dispatch of one content item (section 4.4, not
under src/): the subscriber set `subs` snapshotted at dispatch time is
processed in order over the DeliveryRecords `recs`; the result is the
records after the dispatch and the list of subscribers delivered to. -/
def dispatch (ok : String → Bool) (item : String) (subs : List String)
    (recs : List (String × String)) : List (String × String) × List String :=
  subs.foldl (deliverStep ok item) (recs, [])

/-- Modelled from the spec: cursor update of the Fanout Dispatcher
(sections 4.4 and 5, not under src/): an item is ingested only when its
source-provided sequence position is strictly greater than the stored
cursor, and ingestion moves the cursor to that position. -/
def ingest (cursor : Nat) (seq : Nat) : Nat :=
  if cursor < seq then seq else cursor

/-- Modelled from the spec: the cursor after a sequence of poll results is
processed; by the single-writer discipline of section 5 every concurrent
interleaving of polls for one channel is some such sequence. -/
def runPolls (cursor : Nat) (seqs : List Nat) : Nat :=
  seqs.foldl ingest cursor

/-- Channel record of the specification scenario. -/
def techChannel : Channel :=
  ⟨"tech-news", "Tech News", "https://example.com/tech"⟩

theorem execute_generic (cmd : Command) (msg : String) :
    execute cmd (Except.error (PyExn.generic msg)) =
      ⟨preEvents cmd ++ [Event.reply msg], none⟩ := rfl

theorem execute_ok (cmd : Command) (d : Dict) (nm u : String)
    (hn : dictGet d "name" = Except.ok nm) (hu : dictGet d "url" = Except.ok u) :
    execute cmd (Except.ok d) =
      ⟨preEvents cmd ++ [Event.reply (successMsg nm u)], none⟩ := by
  simp only [execute, hn, hu]

theorem execute_ok_name_err (cmd : Command) (d : Dict) (e : PyExn)
    (hn : dictGet d "name" = Except.error e) :
    execute cmd (Except.ok d) = ⟨preEvents cmd, some e⟩ := by
  simp only [execute, hn]

theorem execute_ok_url_err (cmd : Command) (d : Dict) (nm : String) (e : PyExn)
    (hn : dictGet d "name" = Except.ok nm)
    (hu : dictGet d "url" = Except.error e) :
    execute cmd (Except.ok d) = ⟨preEvents cmd, some e⟩ := by
  simp only [execute, hn, hu]

theorem replies_pre_append (cmd : Command) (t : String) (x : Option PyExn) :
    replies ⟨preEvents cmd ++ [Event.reply t], x⟩ =
      (if cmd.is_private then [] else [unsupportedMsg]) ++ [t] := by
  cases cmd with
  | mk b => cases b <;> simp [replies, preEvents]

theorem replies_pre_only (cmd : Command) (x : Option PyExn) :
    replies ⟨preEvents cmd, x⟩ =
      if cmd.is_private then [] else [unsupportedMsg] := by
  cases cmd with
  | mk b => cases b <;> simp [replies, preEvents]

theorem events_execute (cmd : Command) (res : Except PyExn Dict) :
    ∃ post, (execute cmd res).events = preEvents cmd ++ post := by
  cases res with
  | ok d =>
    cases hn : dictGet d "name" with
    | error e => exact ⟨[], by rw [execute_ok_name_err cmd d e hn]; simp⟩
    | ok nm =>
      cases hu : dictGet d "url" with
      | error e => exact ⟨[], by rw [execute_ok_url_err cmd d nm e hn hu]; simp⟩
      | ok u =>
          exact ⟨[Event.reply (successMsg nm u)], by rw [execute_ok cmd d nm u hn hu]⟩
  | error e =>
    cases e with
    | generic msg => exact ⟨[Event.reply msg], rfl⟩
    | keyError k => exact ⟨[], by simp [execute]⟩
    | other t => exact ⟨[], by simp [execute]⟩

theorem callSubscribe_mem_pre (cmd : Command) :
    Event.callSubscribe ∈ preEvents cmd := by
  cases cmd with
  | mk b => cases b <;> simp [preEvents]

/-- Claim C1, evaluated on the code at the failing input: for a command
whose context is not private the handler still performs the call
subscriptions.subscribe(command) on every outcome, because the
unsupported-context reply on line 11 is not followed by a return; in
particular, when the service returns the Tech News channel dict, the
success reply is sent right after the unsupported-context reply. -/
theorem c1_nonprivate_still_calls_subscribe :
    (∀ res : Except PyExn Dict,
        Event.callSubscribe ∈ (execute ⟨false⟩ res).events) ∧
      replies (execute ⟨false⟩ (Except.ok techNewsDict)) =
        [unsupportedMsg, successMsg "Tech News" "https://example.com/tech"] := by
  refine ⟨fun res => ?_, by decide⟩
  obtain ⟨post, h⟩ := events_execute ⟨false⟩ res
  rw [h]
  exact List.mem_append_left _ (callSubscribe_mem_pre _)

/-- Claim C2: for a command whose context is not private the handler sends
at least two replies: the unsupported-context text first and then, because
control falls through to the try block, the success reply when
subscriptions.subscribe returns a dict holding name and url entries, or
str(e) when it raises GenericSubscriptionError. -/
theorem c2_nonprivate_two_replies (cmd : Command) (res : Except PyExn Dict)
    (hp : cmd.is_private = false)
    (hres : (∃ d nm u, res = Except.ok d ∧ dictGet d "name" = Except.ok nm ∧
        dictGet d "url" = Except.ok u) ∨
      ∃ msg, res = Except.error (PyExn.generic msg)) :
    2 ≤ (replies (execute cmd res)).length ∧
      ∃ second, replies (execute cmd res) = [unsupportedMsg, second] ∧
        ((∃ d nm u, res = Except.ok d ∧ dictGet d "name" = Except.ok nm ∧
            dictGet d "url" = Except.ok u ∧ second = successMsg nm u) ∨
          ∃ msg, res = Except.error (PyExn.generic msg) ∧ second = msg) := by
  have key : ∃ second, replies (execute cmd res) = [unsupportedMsg, second] ∧
      ((∃ d nm u, res = Except.ok d ∧ dictGet d "name" = Except.ok nm ∧
          dictGet d "url" = Except.ok u ∧ second = successMsg nm u) ∨
        ∃ msg, res = Except.error (PyExn.generic msg) ∧ second = msg) := by
    rcases hres with ⟨d, nm, u, rfl, hn, hu⟩ | ⟨msg, rfl⟩
    · refine ⟨successMsg nm u, ?_, Or.inl ⟨d, nm, u, rfl, hn, hu, rfl⟩⟩
      rw [execute_ok cmd d nm u hn hu, replies_pre_append, hp]
      simp
    · refine ⟨msg, ?_, Or.inr ⟨msg, rfl, rfl⟩⟩
      rw [execute_generic, replies_pre_append, hp]
      simp
  obtain ⟨second, hs, hcase⟩ := key
  exact ⟨by rw [hs]; simp, second, hs, hcase⟩

/-- Claim C2 witness: the non-private Tech News run sends two replies. -/
theorem c2_witness :
    2 ≤ (replies (execute ⟨false⟩ (Except.ok techNewsDict))).length :=
  (c2_nonprivate_two_replies ⟨false⟩ (Except.ok techNewsDict) rfl
    (Or.inl ⟨techNewsDict, "Tech News", "https://example.com/tech",
      rfl, rfl, rfl⟩)).1

/-- Claim C3 counterexample: for a non-private command and a
GenericSubscriptionError whose str() equals the unsupported-context text,
execute catches the exception but sends two replies with text str(e), not
exactly one, because the unsupported-context reply is followed by
fall-through into the try block. -/
theorem c3_counterexample :
    (replies (execute ⟨false⟩ (Except.error
        (PyExn.generic "Groups currently are not supported!")))).count
      "Groups currently are not supported!" = 2 ∧
    (execute ⟨false⟩ (Except.error
        (PyExn.generic "Groups currently are not supported!"))).exn = none := by
  decide

/-- Claim C3 as amended: when subscriptions.subscribe raises
GenericSubscriptionError, execute catches it (no exception propagates) and
its reply list is exactly str(e) alone for a private command, and the
unsupported-context reply followed by str(e) otherwise; in particular no
success reply is sent and str(e) is always the final reply. -/
theorem c3_generic_caught (cmd : Command) (msg : String) :
    (execute cmd (Except.error (PyExn.generic msg))).exn = none ∧
      replies (execute cmd (Except.error (PyExn.generic msg))) =
        (if cmd.is_private then [] else [unsupportedMsg]) ++ [msg] := by
  refine ⟨rfl, ?_⟩
  rw [execute_generic, replies_pre_append]

/-- Claim C4: when subscriptions.subscribe returns a dict with name and
url entries, execute sends the success reply built from both, and that
reply text contains the display name and the url as substrings. -/
theorem c4_success_reply (cmd : Command) (d : Dict) (nm u : String)
    (hn : dictGet d "name" = Except.ok nm)
    (hu : dictGet d "url" = Except.ok u) :
    successMsg nm u ∈ replies (execute cmd (Except.ok d)) ∧
      (∃ p q, successMsg nm u = p ++ nm ++ q) ∧
      ∃ p q, successMsg nm u = p ++ u ++ q := by
  refine ⟨?_, ⟨"Successfully subscribed to \"", "\" (@" ++ u ++ ")", ?_⟩,
    ⟨"Successfully subscribed to \"" ++ nm ++ "\" (@", ")", ?_⟩⟩
  · rw [execute_ok cmd d nm u hn hu, replies_pre_append]
    simp
  · apply String.ext
    simp [successMsg, String.data_append]
  · apply String.ext
    simp [successMsg, String.data_append]

/-- Claim C4 witness: the Tech News scenario reply is sent and contains
the name. -/
theorem c4_witness :
    successMsg "Tech News" "https://example.com/tech" ∈
      replies (execute ⟨true⟩ (Except.ok techNewsDict)) :=
  (c4_success_reply ⟨true⟩ techNewsDict "Tech News" "https://example.com/tech"
    rfl rfl).1

/-- Claim C6: in every run the is_private() check is performed before the
call subscriptions.subscribe(command): the event trace splits at the
service call, and the context check lies strictly before that point. -/
theorem c6_check_before_subscribe (cmd : Command) (res : Except PyExn Dict) :
    ∃ pre post,
      (execute cmd res).events = pre ++ Event.callSubscribe :: post ∧
        Event.checkPrivate cmd.is_private ∈ pre := by
  obtain ⟨p, hp⟩ := events_execute cmd res
  refine ⟨Event.checkPrivate cmd.is_private ::
      (if cmd.is_private then [] else [Event.reply unsupportedMsg]), p, ?_, ?_⟩
  · rw [hp]
    cases cmd with
    | mk b => cases b <;> simp [preEvents]
  · simp

/-- Claim C9: only GenericSubscriptionError is caught: an exception of any
other class raised by subscriptions.subscribe, and the KeyError raised
when the returned dict lacks the name or url entry, escape execute
uncaught; such a run performs only the events preceding inspection of the
outcome, so no success reply is sent. -/
theorem c9_other_exceptions_escape (cmd : Command) :
    (∀ tag, execute cmd (Except.error (PyExn.other tag)) =
        ⟨preEvents cmd, some (PyExn.other tag)⟩) ∧
    (∀ k, execute cmd (Except.error (PyExn.keyError k)) =
        ⟨preEvents cmd, some (PyExn.keyError k)⟩) ∧
    (∀ d, dictGet d "name" = Except.error (PyExn.keyError "name") →
        execute cmd (Except.ok d) =
          ⟨preEvents cmd, some (PyExn.keyError "name")⟩) ∧
    (∀ d nm, dictGet d "name" = Except.ok nm →
        dictGet d "url" = Except.error (PyExn.keyError "url") →
        execute cmd (Except.ok d) =
          ⟨preEvents cmd, some (PyExn.keyError "url")⟩) ∧
    ∀ x : Option PyExn, replies ⟨preEvents cmd, x⟩ =
        if cmd.is_private then [] else [unsupportedMsg] := by
  refine ⟨fun tag => rfl, fun k => rfl, fun d hn => ?_, fun d nm hn hu => ?_,
    fun x => replies_pre_only cmd x⟩
  · exact execute_ok_name_err cmd d _ hn
  · exact execute_ok_url_err cmd d nm _ hn hu

/-- Claim C9 witness: a returned empty dict makes the KeyError for the
name entry escape execute. -/
theorem c9_witness :
    execute ⟨true⟩ (Except.ok []) =
      ⟨preEvents ⟨true⟩, some (PyExn.keyError "name")⟩ :=
  (c9_other_exceptions_escape ⟨true⟩).2.2.1 [] rfl

/-- Claim C10: a private command produces exactly one reply whenever
subscriptions.subscribe terminates normally with a dict holding name and
url entries or raises GenericSubscriptionError: the success reply in the
first case and str(e) in the second, never both and never zero. -/
theorem c10_private_exactly_one_reply (cmd : Command) (res : Except PyExn Dict)
    (hp : cmd.is_private = true) :
    (∀ d nm u, res = Except.ok d → dictGet d "name" = Except.ok nm →
        dictGet d "url" = Except.ok u →
        replies (execute cmd res) = [successMsg nm u]) ∧
    ∀ msg, res = Except.error (PyExn.generic msg) →
        replies (execute cmd res) = [msg] := by
  constructor
  · rintro d nm u rfl hn hu
    rw [execute_ok cmd d nm u hn hu, replies_pre_append, hp]
    simp
  · rintro msg rfl
    rw [execute_generic, replies_pre_append, hp]
    simp

/-- Claim C10 witness: the private Tech News run replies exactly once with
the success text. -/
theorem c10_witness :
    replies (execute ⟨true⟩ (Except.ok techNewsDict)) =
      [successMsg "Tech News" "https://example.com/tech"] :=
  (c10_private_exactly_one_reply ⟨true⟩ (Except.ok techNewsDict) rfl).1
    techNewsDict "Tech News" "https://example.com/tech" rfl rfl rfl

/-- Claim C5: subscribe is idempotent at the subscription level: for a
private subscriber with a resolvable channel to which it is not yet
subscribed, the first call creates the subscription, the second call
signals AlreadySubscribed with the existing channel, and the store ends
with exactly one entry for the pair. -/
theorem c5_subscribe_idempotent (resolve : String → Option Channel)
    (sub rawId : String) (ch : Channel) (st : Store)
    (hres : resolve rawId = some ch) (hnew : (sub, ch.id) ∉ st) :
    (managerSubscribe resolve true sub rawId st).1 = Except.ok ch ∧
    (managerSubscribe resolve true sub rawId
        (managerSubscribe resolve true sub rawId st).2).1 =
      Except.error (SubError.alreadySubscribed ch) ∧
    ((managerSubscribe resolve true sub rawId
        (managerSubscribe resolve true sub rawId st).2).2).count
      (sub, ch.id) = 1 := by
  have h1 : managerSubscribe resolve true sub rawId st =
      (Except.ok ch, (sub, ch.id) :: st) := by
    simp [managerSubscribe, storeAdd, hres, hnew]
  have h2 : managerSubscribe resolve true sub rawId ((sub, ch.id) :: st) =
      (Except.error (SubError.alreadySubscribed ch), (sub, ch.id) :: st) := by
    simp [managerSubscribe, storeAdd, hres]
  rw [h1]
  refine ⟨rfl, ?_, ?_⟩
  · rw [h2]
  · rw [h2]
    simp [List.count_cons_self, List.count_eq_zero.mpr hnew]

/-- Claim C5 witness: the concrete two-call scenario for subscriber U1 and
channel tech-news starting from the empty store. -/
theorem c5_witness :
    (managerSubscribe (fun _ => some techChannel) true "U1" "tech-news"
        ((managerSubscribe (fun _ => some techChannel) true "U1"
          "tech-news" []).2)).1 =
      Except.error (SubError.alreadySubscribed techChannel) :=
  (c5_subscribe_idempotent (fun _ => some techChannel) "U1" "tech-news"
    techChannel [] rfl (by simp)).2.1

theorem dispatch_inv (ok : String → Bool) (item : String) :
    ∀ (subs : List String) (acc : List (String × String) × List String),
      (∀ s ∈ acc.2, (item, s) ∈ acc.1) →
      (∀ s, acc.2.count s ≤ 1) →
      (∀ s ∈ (subs.foldl (deliverStep ok item) acc).2,
          (item, s) ∈ (subs.foldl (deliverStep ok item) acc).1) ∧
      (∀ s, ((subs.foldl (deliverStep ok item) acc).2).count s ≤ 1) ∧
      (∀ p ∈ acc.1, p ∈ (subs.foldl (deliverStep ok item) acc).1) ∧
      (∀ s, (item, s) ∈ acc.1 →
          s ∈ (subs.foldl (deliverStep ok item) acc).2 → s ∈ acc.2) := by
  intro subs
  induction subs with
  | nil =>
    intro acc h1 h2
    exact ⟨h1, h2, fun p hp => hp, fun s _ hs => hs⟩
  | cons a t ih =>
    intro acc h1 h2
    rw [List.foldl_cons]
    by_cases hmem : (item, a) ∈ acc.1
    · have hstep : deliverStep ok item acc a = acc := by
        simp [deliverStep, hmem]
      rw [hstep]
      exact ih acc h1 h2
    · by_cases hok : ok a = true
      · have hstep : deliverStep ok item acc a =
            ((item, a) :: acc.1, acc.2 ++ [a]) := by
          simp [deliverStep, hmem, hok]
        rw [hstep]
        have hna : a ∉ acc.2 := fun ha => hmem (h1 a ha)
        have h1' : ∀ s ∈ acc.2 ++ [a], (item, s) ∈ (item, a) :: acc.1 := by
          intro s hs
          rcases List.mem_append.mp hs with hs | hs
          · exact List.mem_cons_of_mem _ (h1 s hs)
          · simp at hs
            subst hs
            exact List.mem_cons_self _ _
        have h2' : ∀ s, (acc.2 ++ [a]).count s ≤ 1 := by
          intro s
          by_cases hsa : s = a
          · subst hsa
            rw [List.count_append, List.count_eq_zero.mpr hna]
            simp
          · rw [List.count_append]
            have : [a].count s = 0 := by
              rw [List.count_eq_zero]
              simp [hsa]
            rw [this]
            simpa using h2 s
        obtain ⟨g1, g2, g3, g4⟩ := ih ((item, a) :: acc.1, acc.2 ++ [a]) h1' h2'
        refine ⟨g1, g2, fun p hp => g3 p (List.mem_cons_of_mem _ hp),
          fun s hsrec hsfin => ?_⟩
        have := g4 s (List.mem_cons_of_mem _ hsrec) hsfin
        rcases List.mem_append.mp this with hs | hs
        · exact hs
        · simp at hs
          subst hs
          exact absurd hsrec hmem
      · have hstep : deliverStep ok item acc a = acc := by
          simp [deliverStep, hmem, hok]
        rw [hstep]
        exact ih acc h1 h2

/-- Claim C7: at-most-once delivery per item and subscriber: in a dispatch
of item I over the snapshotted subscriber set each subscriber is delivered
to at most once, every successful delivery leaves a DeliveryRecord, a
subscriber already holding a successful record for I is never delivered to
again, and re-running dispatch for I over the records left by a first run
(with any transport outcomes and any snapshot) delivers to no subscriber
who already succeeded. -/
theorem c7_at_most_once (ok : String → Bool) (item : String)
    (subs : List String) (recs : List (String × String)) :
    (∀ s, ((dispatch ok item subs recs).2).count s ≤ 1) ∧
    (∀ s ∈ (dispatch ok item subs recs).2,
        (item, s) ∈ (dispatch ok item subs recs).1) ∧
    (∀ s, (item, s) ∈ recs → s ∉ (dispatch ok item subs recs).2) ∧
    ∀ ok2 subs2 s, s ∈ (dispatch ok item subs recs).2 →
        s ∉ (dispatch ok2 item subs2 (dispatch ok item subs recs).1).2 := by
  have base := dispatch_inv ok item subs (recs, [])
    (by intro s hs; simp at hs) (by intro s; simp)
  obtain ⟨g1, g2, g3, g4⟩ := base
  refine ⟨g2, g1, fun s hs hmem => ?_, fun ok2 subs2 s hs hmem => ?_⟩
  · have := g4 s hs hmem
    simp at this
  · have hrec : (item, s) ∈ (dispatch ok item subs recs).1 := g1 s hs
    have base2 := dispatch_inv ok2 item subs2 ((dispatch ok item subs recs).1, [])
      (by intro s hs; simp at hs) (by intro s; simp)
    have := base2.2.2.2 s hrec hmem
    simp at this

/-- Claim C7 witness: a subscriber with an existing successful record for
the item is skipped on re-dispatch. -/
theorem c7_witness :
    "U1" ∉ (dispatch (fun _ => true) "I1" ["U1", "U2"] [("I1", "U1")]).2 :=
  (c7_at_most_once (fun _ => true) "I1" ["U1", "U2"]
    [("I1", "U1")]).2.2.1 "U1" (by simp)

theorem le_runPolls (seqs : List Nat) : ∀ c, c ≤ runPolls c seqs := by
  induction seqs with
  | nil => intro c; exact Nat.le_refl c
  | cons a t ih =>
    intro c
    have h1 : c ≤ ingest c a := by
      unfold ingest
      split <;> omega
    have h2 : ingest c a ≤ runPolls (ingest c a) t := ih (ingest c a)
    calc c ≤ ingest c a := h1
      _ ≤ runPolls (ingest c a) t := h2
      _ = runPolls c (a :: t) := by simp [runPolls]

/-- Claim C8: cursor monotonicity: across any sequence of poll results for
a channel (by the single-writer discipline every concurrent interleaving
is such a sequence) the stored cursor never decreases, and each single
ingestion either leaves the cursor unchanged or moves it to a strictly
greater position. -/
theorem c8_cursor_monotone (c : Nat) (seqs : List Nat) (s : Nat) :
    c ≤ runPolls c seqs ∧ (ingest c s = c ∨ c < ingest c s) := by
  refine ⟨le_runPolls seqs c, ?_⟩
  unfold ingest
  split
  · rename_i h
    right
    simpa using h
  · left
    rfl

end ChannelsFeed
